import Mathlib

/-
Verification of the unified-diff patch engine in src/agent/tools/patch.py.

The Python functions `parse_unified_diff`, `apply_patch_to_file`,
`apply_patch_file` and `validate_patch` are embedded as executable Lean
functions.  Python strings are modelled as Lean `String` (a list of code
points, matching Python's code-point indexing); the Python string
primitives used by the code (`split('\n')`, `splitlines()`, `startswith`,
`strip()`, slicing, `'\n'.join`) are modelled explicitly below.  File
system reads and writes are modelled through an explicit store so the
I/O-performing functions become pure state transformers.
-/

namespace PatchTool

/-- Python `s.split('\n')`: cut at every newline; empty input gives
one empty field. -/
def splitNlAux : List Char → List Char → List String
| [], acc => [String.mk acc.reverse]
| '\n' :: cs, acc => String.mk acc.reverse :: splitNlAux cs []
| c :: cs, acc => splitNlAux cs (c :: acc)

def pySplitNl (s : String) : List String := splitNlAux s.data []

/-- Python `s.splitlines()` restricted to the terminators `\n`, `\r\n`
and `\r` (the exotic terminators `\v`, `\f`, `\x1c`-`\x1e`, `\x85`,
U+2028 and U+2029 never occur in the inputs considered here and are
treated as ordinary characters): no trailing empty field. -/
def splitlinesAux : List Char → List Char → List String
| [], [] => []
| [], acc => [String.mk acc.reverse]
| '\r' :: '\n' :: cs, acc => String.mk acc.reverse :: splitlinesAux cs []
| '\r' :: cs, acc => String.mk acc.reverse :: splitlinesAux cs []
| '\n' :: cs, acc => String.mk acc.reverse :: splitlinesAux cs []
| c :: cs, acc => splitlinesAux cs (c :: acc)

def pySplitlines (s : String) : List String := splitlinesAux s.data []

def listStartsWith : List Char → List Char → Bool
| [], _ => true
| _ :: _, [] => false
| c :: cs, d :: ds => c = d && listStartsWith cs ds

/-- Python `s.startswith(p)`. -/
def pyStartsWith (s p : String) : Bool := listStartsWith p.data s.data

/-- Python `s[n:]` (slicing by code points). -/
def pyDrop (s : String) (n : Nat) : String := String.mk (s.data.drop n)

def isPySpace (c : Char) : Bool :=
  c = ' ' || c = '\t' || c = '\n' || c = '\r' || c = '\x0b' || c = '\x0c'

/-- Python `s.strip()`: remove leading and trailing whitespace. -/
def pyStrip (s : String) : String :=
  String.mk (((s.data.dropWhile isPySpace).reverse.dropWhile isPySpace).reverse)

/-- Python `'\n'.join(lines)`. -/
def joinNl : List String → String
| [] => ""
| [l] => l
| l :: ls => l ++ "\n" ++ joinNl ls

/-- Value of a decimal digit string, as Python `int` on the digit-only
strings produced by the hunk-header regular expression. -/
def digitsToNat (cs : List Char) : Nat :=
  cs.foldl (fun n c => n * 10 + (c.toNat - 48)) 0

/-- Python `int(s)` restricted to the regex capture groups, which are
digit-only; `int('')` raises, modelled as `none`. -/
def pyInt? (cs : List Char) : Option Nat :=
  if !cs.isEmpty && cs.all Char.isDigit then some (digitsToNat cs) else none

/-- `int(group) if group else 1`: the default applied to the optional
count groups of the hunk header (patch.py lines 105 and 107). -/
def pyCountGroup (cs : List Char) : Option Nat :=
  if cs.isEmpty then some 1 else pyInt? cs

/-- A parsed hunk: the dict built at patch.py lines 109-115.  `lines`
holds the raw body lines, leading tag character included, exactly as the
Python code stores them. -/
structure Hunk where
  old_start : Nat
  old_count : Nat
  new_start : Nat
  new_count : Nat
  lines : List String
deriving DecidableEq, Repr

/-- A parsed per-file record: the dict built at patch.py lines 90-94. -/
structure FileData where
  original_file : String
  modified_file : String
  hunks : List Hunk
deriving DecidableEq, Repr

/-- Maximal run of decimal digits at the head of the input, with the
rest, mirroring how `\d+` and `\d*` consume in the hunk-header regex
(the following pattern character is a non-digit, so Python's leftmost
greedy match is exactly maximal munch). -/
def takeDigits : List Char → List Char × List Char
| [] => ([], [])
| c :: cs =>
  if c.isDigit then ((takeDigits cs).1.cons c, (takeDigits cs).2)
  else ([], c :: cs)

/-- The `,?(\d*)` part of the regex: an optional comma followed by
optional digits.  When a comma is present it must be consumed (skipping
it would leave the comma where the regex next requires a space), so the
match is deterministic. -/
def optCommaDigits : List Char → List Char × List Char
| [] => ([], [])
| c :: cs => if c = ',' then takeDigits cs else ([], c :: cs)

/-- `re.match(r'@@ -(\d+),?(\d*) \+(\d+),?(\d*) @@', line)` after the
literal `@@ -` has been consumed: the four capture groups, or `none`
when the line does not match (patch.py line 102). -/
def matchHunkNumbers (r0 : List Char) :
    Option (List Char × List Char × List Char × List Char) :=
  let d1 := (takeDigits r0).1
  let r1 := (takeDigits r0).2
  let d2 := (optCommaDigits r1).1
  let r2 := (optCommaDigits r1).2
  if d1.isEmpty then none
  else
    match r2 with
    | ' ' :: '+' :: r3 =>
      let d3 := (takeDigits r3).1
      let r4 := (takeDigits r3).2
      let d4 := (optCommaDigits r4).1
      let r5 := (optCommaDigits r4).2
      if d3.isEmpty then none
      else
        match r5 with
        | ' ' :: '@' :: '@' :: _ => some (d1, d2, d3, d4)
        | _ => none
    | _ => none

/-- The full hunk-header regular expression of patch.py line 102
(`re.match` anchors at the start only; trailing text is allowed). -/
def matchHunkHeaderGroups (line : String) :
    Option (List Char × List Char × List Char × List Char) :=
  match line.data with
  | '@' :: '@' :: ' ' :: '-' :: r0 => matchHunkNumbers r0
  | _ => none

/-- The integer conversions of patch.py lines 104-107 applied to the
four capture groups; `none` models a raised exception. -/
def hunkFromGroups (g : List Char × List Char × List Char × List Char) :
    Option Hunk :=
  match pyInt? g.1, pyCountGroup g.2.1, pyInt? g.2.2.1, pyCountGroup g.2.2.2 with
  | some os, some oc, some ns, some nc => some ⟨os, oc, ns, nc, []⟩
  | _, _, _, _ => none

/-- Outcome of the outer scanning loop of `parse_unified_diff` on one
line (patch.py lines 86-107): a new scanning state, a newly opened hunk
whose body is about to be collected, or a raised exception. -/
inductive ScanOut
| st (cur : Option FileData) (files : List FileData)
| opened (h : Hunk) (f : FileData) (files : List FileData)
| raised
deriving DecidableEq

/-- One step of the outer loop of `parse_unified_diff` when no hunk
body is being collected: file header, modified-file header, hunk
header, or an ignored line (patch.py lines 82-128). -/
def scanLine (line : String) (cur : Option FileData) (files : List FileData) :
    ScanOut :=
  if pyStartsWith line "--- " then
    .st (some ⟨pyStrip (pyDrop line 4), "", []⟩) (files ++ cur.toList)
  else
    match cur with
    | none => .st none files
    | some f =>
      if pyStartsWith line "+++ " then
        .st (some { f with modified_file := pyStrip (pyDrop line 4) }) files
      else if pyStartsWith line "@@" then
        match matchHunkHeaderGroups line with
        | some g =>
          match hunkFromGroups g with
          | some h => .opened h f files
          | none => .raised
        | none => .st (some f) files
      else .st (some f) files

/-- Append a finished hunk to the open file record (patch.py line 125). -/
def closeHunk (oh : Option Hunk) (cur : Option FileData) : Option FileData :=
  match oh with
  | none => cur
  | some h => cur.map fun f => { f with hunks := f.hunks ++ [h] }

/-- The loop of `parse_unified_diff` (patch.py lines 82-131) as a state
machine over the remaining lines.  `oh` is the hunk whose body lines are
currently being collected (the inner loop of lines 118-123); on a line
starting with `@@` or `---` the body collection stops and the line is
handled by the outer scan, exactly as the Python `continue` re-examines
the terminating line.  The result is `none` only if an `int` conversion
raised. -/
def parseLoop : List String → Option Hunk → Option FileData → List FileData →
    Option (List FileData)
| [], oh, cur, files =>
  some (files ++ (closeHunk oh cur).toList)
| line :: rest, some h, cur, files =>
  if pyStartsWith line "@@" || pyStartsWith line "---" then
    match scanLine line (closeHunk (some h) cur) files with
    | .st cur' files' => parseLoop rest none cur' files'
    | .opened h' f' files' => parseLoop rest (some h') (some f') files'
    | .raised => none
  else if pyStartsWith line " " || pyStartsWith line "+" || pyStartsWith line "-" then
    parseLoop rest (some { h with lines := h.lines ++ [line] }) cur files
  else
    parseLoop rest (some h) cur files
| line :: rest, none, cur, files =>
  match scanLine line cur files with
  | .st cur' files' => parseLoop rest none cur' files'
  | .opened h' f' files' => parseLoop rest (some h') (some f') files'
  | .raised => none

/-- `parse_unified_diff` (patch.py lines 73-133).  `none` models an
uncaught exception; the totality theorem below shows this never
happens. -/
def parse_unified_diff (patch_content : String) : Option (List FileData) :=
  parseLoop (pySplitNl patch_content) none none []

/-- Result object of the Python `PatchResult` class (patch.py lines
19-26), restricted to the fields the program reads. -/
structure PatchResult where
  success : Bool
  message : String
deriving DecidableEq, Repr

/-- Outcome of reading the target file (patch.py lines 142-148): the
file's content, absence (treated as an empty line list), or a raised
read error. -/
inductive ReadResult
| ok (content : String)
| notFound
| readError
deriving DecidableEq, Repr

/-- Normalise one Python slice index for a list of length `n`: negative
indices count from the end and out-of-range indices are clamped. -/
def pyNormIndex (n : Nat) (i : Int) : Nat :=
  if i < 0 then (n + i).toNat else min i.toNat n

/-- Python list slice assignment `l[a:b] = repl` (patch.py line 169):
the slice, with its stop clamped below by its start, is replaced by
`repl`.  This never raises, whatever the indices. -/
def pySliceAssign (l : List String) (a b : Int) (repl : List String) :
    List String :=
  let a' := pyNormIndex l.length a
  let b' := max a' (pyNormIndex l.length b)
  l.take a' ++ repl ++ l.drop b'

/-- The `new_lines` list built at patch.py lines 157-165: added and
context lines with their tag stripped, removed lines dropped. -/
def hunkNewLines (hunkLines : List String) : List String :=
  hunkLines.filterMap fun l =>
    if pyStartsWith l "+" then some (pyDrop l 1)
    else if pyStartsWith l " " then some (pyDrop l 1)
    else none

/-- One iteration of the hunk loop (patch.py lines 151-169): splice the
hunk's new lines over `lines[old_start-1 : old_start-1+old_count]`.
The surrounding `except` (lines 171-172) is unreachable: slice
assignment accepts any integer bounds and every dict key is present on
a parsed hunk. -/
def applyOneHunk (lines : List String) (h : Hunk) : List String :=
  let old_start : Int := (h.old_start : Int) - 1
  let end_line : Int := old_start + (h.old_count : Int)
  pySliceAssign lines old_start end_line (hunkNewLines h.lines)

/-- The hunk loop of `apply_patch_to_file`: `for hunk in
reversed(patch_data['hunks'])` (patch.py line 151). -/
def applyHunksReversed (lines : List String) (hs : List Hunk) : List String :=
  hs.reverse.foldl applyOneHunk lines

/-- `apply_patch_to_file` (patch.py lines 136-180) with the read
modelled by an explicit `ReadResult` and the write returned as the
second component (`none` when nothing was written; the writer itself is
modelled as always succeeding). -/
def apply_patch_to_file (file_path : String) (read : ReadResult)
    (patch_data : FileData) : PatchResult × Option String :=
  match read with
  | .readError => (⟨false, "Error reading file " ++ file_path⟩, none)
  | .notFound =>
    let lines := applyHunksReversed [] patch_data.hunks
    (⟨true, "Patch applied successfully to " ++ file_path⟩,
      some (joinNl lines ++ "\n"))
  | .ok c =>
    let lines := applyHunksReversed (pySplitlines c) patch_data.hunks
    (⟨true, "Patch applied successfully to " ++ file_path⟩,
      some (joinNl lines ++ "\n"))

/-- State of one path in the modelled file store: stored content, or a
file whose read raises. -/
inductive FileEntry
| stored (c : String)
| unreadable
deriving DecidableEq, Repr

/-- Read through the store: the injected-reader view of patch.py lines
142-148. -/
def fsRead (fs : List (String × FileEntry)) (p : String) : ReadResult :=
  match fs.lookup p with
  | some (.stored c) => .ok c
  | some .unreadable => .readError
  | none => .notFound

/-- Write through the store (patch.py lines 176-177). -/
def fsWrite : List (String × FileEntry) → String → String →
    List (String × FileEntry)
| [], p, c => [(p, .stored c)]
| (q, e) :: rest, p, c =>
  if q = p then (q, .stored c) :: rest else (q, e) :: fsWrite rest p c

/-- Target-path resolution of `apply_patch_file` (patch.py lines
239-241): the `b/` prefix of the modified-file header is stripped. -/
def resolvePath (p : String) : String :=
  if pyStartsWith p "b/" then pyDrop p 2 else p

/-- The per-file loop of `apply_patch_file` (patch.py lines 237-262,
dry_run false), over the modelled store.  The base-directory
containment check of lines 245-254 resolves filesystem paths and is
modelled as always passing; reading the patch file itself (lines
221-227) is modelled by receiving its content.  `none` models an
exception escaping from the unguarded `parse_unified_diff` call at line
230, which the totality theorem rules out. -/
def apply_patch_file (patch_content : String)
    (fs : List (String × FileEntry)) :
    Option (List PatchResult × List (String × FileEntry)) :=
  match parse_unified_diff patch_content with
  | none => none
  | some files_data =>
    if files_data.isEmpty then
      some ([⟨false, "No valid patch data found"⟩], fs)
    else
      some (files_data.foldl
        (fun acc file_data =>
          let file_path := resolvePath file_data.modified_file
          let r := apply_patch_to_file file_path (fsRead acc.2 file_path)
            file_data
          (acc.1 ++ [r.1],
            match r.2 with
            | some c => fsWrite acc.2 file_path c
            | none => acc.2))
        ([], fs))

/-- `validate_patch` (patch.py lines 265-284): blank content, an empty
parse result, and a file with no hunks are the only rejections; the
`except` branch would require `parse_unified_diff` to raise. -/
def validate_patch (patch_content : String) : PatchResult :=
  if pyStrip patch_content = "" then ⟨false, "Empty patch content"⟩
  else
    match parse_unified_diff patch_content with
    | none => ⟨false, "Invalid patch format"⟩
    | some files_data =>
      if files_data.isEmpty then
        ⟨false, "No valid file changes found in patch"⟩
      else
        match files_data.find? (fun fd => fd.hunks.isEmpty) with
        | some fd => ⟨false, "No hunks found for file: " ++ fd.modified_file⟩
        | none =>
          ⟨true, "Valid patch with " ++ toString files_data.length ++ " file(s)"⟩

/-- Count of failed per-file results, as the CLI derives it from the
result list (cli.py line 401 counts successes; failures are the rest).
This realises the spec's `PatchOutcome.failed_count`. -/
def failedCount (rs : List PatchResult) : Nat :=
  (rs.filter fun r => !r.success).length

/-- Count of succeeded per-file results (cli.py line 401). -/
def succeededCount (rs : List PatchResult) : Nat :=
  (rs.filter fun r => r.success).length

/-- The pre-image recorded by a hunk, in the claims' sense: its context
and removed lines in order, tag stripped. -/
def preImageLines (h : Hunk) : List String :=
  h.lines.filterMap fun l =>
    if pyStartsWith l " " then some (pyDrop l 1)
    else if pyStartsWith l "-" then some (pyDrop l 1)
    else none

/-- The slice of the current content a hunk claims to describe:
`old_count` lines starting at line `old_start` (1-based). -/
def targetSlice (content : String) (h : Hunk) : List String :=
  (((pySplitlines content).drop (h.old_start - 1)).take h.old_count)

/-- The PatchApplier algorithm as the spec states it for claim C2
(spec.md section 4.3, steps 2, 3, 5, 6), written from the spec's words
to compare with the code: hunks processed in the order given, a running
signed offset starting at 0, each hunk spliced at
`effective_start = old_start - 1 + offset`, and
`offset += new_count - old_count` after each hunk.  The pre-image
comparison of step 4 is not part of claim C2 and is omitted so that the
comparison isolates order and offset. -/
def specOrderedApply (lines : List String) (hs : List Hunk) : List String :=
  (hs.foldl
    (fun (st : List String × Int) h =>
      let eff : Int := (h.old_start : Int) - 1 + st.2
      (pySliceAssign st.1 eff (eff + (h.old_count : Int)) (hunkNewLines h.lines),
        st.2 + ((h.new_count : Int) - (h.old_count : Int))))
    (lines, 0)).1

/-- Number of Context plus Removed body lines of a hunk, the tally the
spec's validator compares with `old_count`. -/
def countOldLines (h : Hunk) : Nat :=
  (h.lines.filter fun l => pyStartsWith l " " || pyStartsWith l "-").length

/-- Number of Context plus Added body lines of a hunk, the tally the
spec's validator compares with `new_count`. -/
def countNewLines (h : Hunk) : Nat :=
  (h.lines.filter fun l => pyStartsWith l " " || pyStartsWith l "+").length

lemma takeDigits_all_digits (cs : List Char) :
    ((takeDigits cs).1).all Char.isDigit = true := by
  induction cs with
  | nil => rfl
  | cons c cs ih =>
    simp only [takeDigits]
    split
    · next hc => simpa [List.all_cons, hc] using ih
    · rfl

lemma optCommaDigits_all_digits (cs : List Char) :
    ((optCommaDigits cs).1).all Char.isDigit = true := by
  cases cs with
  | nil => rfl
  | cons c cs =>
    simp only [optCommaDigits]
    split
    · exact takeDigits_all_digits cs
    · rfl

lemma pyInt?_isSome (cs : List Char) (h1 : cs.isEmpty = false)
    (h2 : cs.all Char.isDigit = true) : (pyInt? cs).isSome = true := by
  simp [pyInt?, h1, h2]

lemma pyCountGroup_isSome (cs : List Char) (h2 : cs.all Char.isDigit = true) :
    (pyCountGroup cs).isSome = true := by
  unfold pyCountGroup
  split
  · rfl
  · next h => exact pyInt?_isSome cs (by simpa using h) h2

/-- Whenever the hunk-header regex matches, the four capture groups
convert to integers without raising: the kernel fact behind the
totality of the parser. -/
lemma matchHunkNumbers_hunk (r0 : List Char)
    (g : List Char × List Char × List Char × List Char)
    (hm : matchHunkNumbers r0 = some g) :
    (hunkFromGroups g).isSome = true := by
  simp only [matchHunkNumbers] at hm
  split at hm
  · exact absurd hm (by simp)
  · rename_i hd1
    split at hm
    · rename_i r3 hr3
      split at hm
      · exact absurd hm (by simp)
      · rename_i hd3
        split at hm
        · injection hm with hg
          subst hg
          obtain ⟨n1, e1⟩ := Option.isSome_iff_exists.mp
            (pyInt?_isSome _ (by simpa using hd1) (takeDigits_all_digits r0))
          obtain ⟨n2, e2⟩ := Option.isSome_iff_exists.mp
            (pyCountGroup_isSome _ (optCommaDigits_all_digits (takeDigits r0).2))
          obtain ⟨n3, e3⟩ := Option.isSome_iff_exists.mp
            (pyInt?_isSome _ (by simpa using hd3) (takeDigits_all_digits r3))
          obtain ⟨n4, e4⟩ := Option.isSome_iff_exists.mp
            (pyCountGroup_isSome _ (optCommaDigits_all_digits (takeDigits r3).2))
          simp [hunkFromGroups, e1, e2, e3, e4]
        · exact absurd hm (by simp)
    · exact absurd hm (by simp)

lemma matchHunkHeaderGroups_hunk (line : String)
    (g : List Char × List Char × List Char × List Char)
    (hm : matchHunkHeaderGroups line = some g) :
    (hunkFromGroups g).isSome = true := by
  unfold matchHunkHeaderGroups at hm
  split at hm
  · exact matchHunkNumbers_hunk _ _ hm
  · exact absurd hm (by simp)

/-- The scan of one line never raises: the regex guards every integer
conversion. -/
lemma scanLine_ne_raised (line : String) (cur : Option FileData)
    (files : List FileData) : scanLine line cur files ≠ .raised := by
  intro hcon
  unfold scanLine at hcon
  split at hcon
  · cases hcon
  · split at hcon
    · cases hcon
    · split at hcon
      · cases hcon
      · split at hcon
        · split at hcon
          · next hg =>
            split at hcon
            · cases hcon
            · next hfg =>
              have := matchHunkHeaderGroups_hunk _ _ hg
              rw [hfg] at this
              cases this
          · cases hcon
        · cases hcon

/-- The parsing loop never raises, whatever the remaining input and
state. -/
lemma parseLoop_isSome (ls : List String) :
    ∀ oh cur files, (parseLoop ls oh cur files).isSome = true := by
  induction ls with
  | nil => intro oh cur files; rfl
  | cons line rest ih =>
    intro oh cur files
    cases oh with
    | some h =>
      rw [parseLoop]
      split
      · cases hsc : scanLine line (closeHunk (some h) cur) files with
        | st c f => exact ih none c f
        | opened h' f' fl' => exact ih (some h') (some f') fl'
        | raised => exact absurd hsc (scanLine_ne_raised _ _ _)
      · split
        · exact ih _ _ _
        · exact ih _ _ _
    | none =>
      rw [parseLoop]
      cases hsc : scanLine line cur files with
      | st c f => exact ih none c f
      | opened h' f' fl' => exact ih (some h') (some f') fl'
      | raised => exact absurd hsc (scanLine_ne_raised _ _ _)

/-- Claim C10: parsing a unified diff is total: for every input string,
`parse_unified_diff` returns a (possibly empty) list of per-file
records and never raises, however malformed the input is. -/
theorem parse_unified_diff_total (s : String) :
    (parse_unified_diff s).isSome = true :=
  parseLoop_isSome (pySplitNl s) none none []

/-- Claim C8: parsing the empty input string yields an empty sequence
of file diffs and is not an error. -/
theorem parse_empty_input : parse_unified_diff "" = some [] := by decide

/-- Claim C9: applying to original content `"a\nb\nc\n"` the single
hunk `old_start=2, old_count=1, new_start=2, new_count=2` with lines
`[Context "b", Added "x"]` succeeds and writes exactly
`"a\nb\nx\nc\n"`. -/
theorem apply_concrete_insertion :
    apply_patch_to_file "f" (.ok "a\nb\nc\n")
      ⟨"a/f", "b/f", [⟨2, 1, 2, 2, [" b", "+x"]⟩]⟩ =
      (⟨true, "Patch applied successfully to f"⟩, some "a\nb\nx\nc\n") := by
  decide

/-- Claim C1, counterexample: the hunk records pre-image `["b"]` while
the file holds `["Z"]` at that position, yet `apply_patch_to_file`
reports success and writes modified content (the non-matching context
text `b` is even spliced over the file's actual `Z`), refuting the
claim that a mismatching hunk yields a Conflict with nothing written. -/
theorem apply_mismatched_hunk_writes_anyway :
    preImageLines ⟨2, 1, 2, 2, [" b", "+x"]⟩ ≠
      targetSlice "a\nZ\nc\n" ⟨2, 1, 2, 2, [" b", "+x"]⟩ ∧
    (apply_patch_to_file "f" (.ok "a\nZ\nc\n")
      ⟨"a/f", "b/f", [⟨2, 1, 2, 2, [" b", "+x"]⟩]⟩).1.success = true ∧
    (apply_patch_to_file "f" (.ok "a\nZ\nc\n")
      ⟨"a/f", "b/f", [⟨2, 1, 2, 2, [" b", "+x"]⟩]⟩).2 =
      some "a\nb\nx\nc\n" := by
  decide

/-- Claim C1 (amended): the applier performs no pre-image comparison at
all: for every readable original content and every patch record, it
reports success and writes the blindly spliced content, even when some
hunk's recorded pre-image differs from the corresponding slice of the
file. -/
theorem apply_always_succeeds_on_readable (file_path content : String)
    (fd : FileData) :
    (apply_patch_to_file file_path (.ok content) fd).1.success = true ∧
    (apply_patch_to_file file_path (.ok content) fd).2 =
      some (joinNl (applyHunksReversed (pySplitlines content) fd.hunks) ++ "\n") :=
  ⟨rfl, rfl⟩

/-- Claim C2, counterexample: on two hunks aimed at the same line, the
code (which iterates `reversed(hunks)` with no offset) produces `["x"]`
while processing the hunks in the given order with a running offset
produces `["y"]`; so the applier does not process hunks in the order
given at `old_start - 1 + offset`. -/
theorem reverse_order_differs_from_ordered_offset :
    applyHunksReversed ["a"]
      [⟨1, 1, 1, 1, ["-a", "+x"]⟩, ⟨1, 1, 1, 1, ["-a", "+y"]⟩] = ["x"] ∧
    specOrderedApply ["a"]
      [⟨1, 1, 1, 1, ["-a", "+x"]⟩, ⟨1, 1, 1, 1, ["-a", "+y"]⟩] = ["y"] ∧
    applyHunksReversed ["a"]
      [⟨1, 1, 1, 1, ["-a", "+x"]⟩, ⟨1, 1, 1, 1, ["-a", "+y"]⟩] ≠
      specOrderedApply ["a"]
        [⟨1, 1, 1, 1, ["-a", "+x"]⟩, ⟨1, 1, 1, 1, ["-a", "+y"]⟩] := by
  decide

/-- Claim C2 (amended): the applier iterates the hunks in reverse of
the given order, splicing each at index `old_start - 1` of the current
line array with no offset tracking; on the claim's concrete example (a
10-line original, a first hunk at `old_start=2` replacing 2 lines with
5, a second hunk at `old_start=8`) the second hunk is spliced first, at
index 7 of the still unmutated array, and the final content coincides
with what in-order processing with a running offset produces. -/
theorem reverse_application_matches_offset_on_example :
    applyOneHunk ["l1", "l2", "l3", "l4", "l5", "l6", "l7", "l8", "l9", "l10"]
      ⟨8, 1, 8, 1, ["-l8", "+m"]⟩ =
      ["l1", "l2", "l3", "l4", "l5", "l6", "l7", "m", "l9", "l10"] ∧
    applyHunksReversed
      ["l1", "l2", "l3", "l4", "l5", "l6", "l7", "l8", "l9", "l10"]
      [⟨2, 2, 2, 5, ["-l2", "-l3", "+n1", "+n2", "+n3", "+n4", "+n5"]⟩,
        ⟨8, 1, 8, 1, ["-l8", "+m"]⟩] =
      ["l1", "n1", "n2", "n3", "n4", "n5", "l4", "l5", "l6", "l7", "m",
        "l9", "l10"] ∧
    specOrderedApply
      ["l1", "l2", "l3", "l4", "l5", "l6", "l7", "l8", "l9", "l10"]
      [⟨2, 2, 2, 5, ["-l2", "-l3", "+n1", "+n2", "+n3", "+n4", "+n5"]⟩,
        ⟨8, 1, 8, 1, ["-l8", "+m"]⟩] =
      ["l1", "n1", "n2", "n3", "n4", "n5", "l4", "l5", "l6", "l7", "m",
        "l9", "l10"] := by
  decide

/-- Claim C3, counterexample: in the claim's two-file scenario the
first file's hunk pre-image (`b`) does not match the stored content
(`Z`), yet the whole set reports 2 successes and 0 failures — there is
no Conflict to record — and the first file is even overwritten with the
spliced text, refuting `failed_count=1, succeeded_count=1`. -/
theorem mismatched_file_counts_as_success :
    preImageLines ⟨2, 1, 2, 1, ["-b", "+X"]⟩ ≠
      targetSlice "a\nZ\nc\n" ⟨2, 1, 2, 1, ["-b", "+X"]⟩ ∧
    (apply_patch_file
        "--- a/f1\n+++ b/f1\n@@ -2,1 +2,1 @@\n-b\n+X\n--- a/f2\n+++ b/f2\n@@ -1,1 +1,1 @@\n-p\n+P"
        [("f1", .stored "a\nZ\nc\n"), ("f2", .stored "p\nq\n")]).map
      (fun r => (succeededCount r.1, failedCount r.1)) = some (2, 0) ∧
    (apply_patch_file
        "--- a/f1\n+++ b/f1\n@@ -2,1 +2,1 @@\n-b\n+X\n--- a/f2\n+++ b/f2\n@@ -1,1 +1,1 @@\n-p\n+P"
        [("f1", .stored "a\nZ\nc\n"), ("f2", .stored "p\nq\n")]).map
      (fun r => fsRead r.2 "f1") = some (.ok "a\nX\nc\n") := by
  decide

/-- Claim C3 (amended): a failure the code can actually produce — a
read error on one file — is recorded in that file's per-file result and
processing continues with the remaining files in input order: with the
first file unreadable and the second applying cleanly, the results are
`[failure, success]`, one success and one failure are counted, the
second file's stored content reflects the clean apply, and the first
file is left untouched.  (Context conflicts do not exist in the code: a
drifted file is applied blindly and counts as a success.) -/
theorem read_error_recorded_and_set_continues :
    (apply_patch_file
        "--- a/f1\n+++ b/f1\n@@ -2,1 +2,1 @@\n-b\n+X\n--- a/f2\n+++ b/f2\n@@ -1,1 +1,1 @@\n-p\n+P"
        [("f1", .unreadable), ("f2", .stored "p\nq\n")]).map
      (fun r => (r.1.map (fun p => p.success), succeededCount r.1,
        failedCount r.1, fsRead r.2 "f2", fsRead r.2 "f1")) =
      some ([false, true], 1, 1, .ok "P\nq\n", .readError) := by
  decide

/-- Claim C4, counterexample: a hunk declaring `old_count=5` and
`new_count=5` whose body tallies only 1 Context+Removed line and 1
Context+Added line still passes `validate_patch`, refuting the claim
that validation rejects hunks whose declared counts disagree with their
line tally. -/
theorem inconsistent_counts_pass_validation :
    parse_unified_diff "--- a/f\n+++ b/f\n@@ -1,5 +1,5 @@\n-x\n+y" =
      some [⟨"a/f", "b/f", [⟨1, 5, 1, 5, ["-x", "+y"]⟩]⟩] ∧
    countOldLines ⟨1, 5, 1, 5, ["-x", "+y"]⟩ = 1 ∧
    countNewLines ⟨1, 5, 1, 5, ["-x", "+y"]⟩ = 1 ∧
    (validate_patch "--- a/f\n+++ b/f\n@@ -1,5 +1,5 @@\n-x\n+y").success =
      true := by
  decide

/-- Claim C4 (amended): validation succeeds exactly when the patch text
is not blank, parses to a non-empty list of file records, and every
file record has at least one hunk; the declared `old_count`/`new_count`
of a hunk are never compared against its actual line tally. -/
theorem validate_patch_success_iff (s : String) :
    (validate_patch s).success = true ↔
      (pyStrip s ≠ "" ∧ ∃ fds, parse_unified_diff s = some fds ∧ fds ≠ [] ∧
        ∀ fd ∈ fds, fd.hunks ≠ []) := by
  unfold validate_patch
  split
  · rename_i hempty
    constructor
    · intro h; cases h
    · rintro ⟨hne, -⟩; exact absurd hempty hne
  · rename_i hne
    split
    · rename_i hp
      constructor
      · intro h; cases h
      · rintro ⟨-, fds, hp', -, -⟩; rw [hp] at hp'; cases hp'
    · rename_i fds hp
      split
      · rename_i he
        constructor
        · intro h; cases h
        · rintro ⟨-, fds', hp', hne', -⟩
          rw [hp] at hp'
          injection hp' with h'
          subst h'
          exact (hne' (List.isEmpty_iff.mp he)).elim
      · rename_i he
        split
        · rename_i fd hfind
          constructor
          · intro h; cases h
          · rintro ⟨-, fds', hp', -, hall⟩
            rw [hp] at hp'
            injection hp' with h'
            subst h'
            have hp2 := List.find?_some hfind
            simp only [List.isEmpty_iff] at hp2
            exact (hall fd (List.mem_of_find?_eq_some hfind) hp2).elim
        · rename_i hfind
          simp only [true_iff]
          refine ⟨hne, fds, hp, ?_, ?_⟩
          · intro hcon
            exact he (by simp [hcon])
          · intro fd hmem hcon
            have := List.find?_eq_none.mp hfind fd hmem
            exact this (by simp [hcon])

/-- Claim C5, counterexample: a hunk header with no enclosing file
header does not fail with a ParseError — parsing succeeds, silently
skipping the hunk header and its body, and yields the empty list. -/
theorem orphan_hunk_header_silently_ignored :
    parse_unified_diff "@@ -1,1 +1,1 @@\n-x\n+y" = some [] := by decide

/-- Claim C5 (amended): a hunk header that fails the numeric grammar is
silently skipped (the enclosing file keeps an empty hunk list), and
parsing never fails on any input: no ParseError exists in the code. -/
theorem malformed_header_skipped_and_parse_never_fails :
    parse_unified_diff "--- a/f\n+++ b/f\n@@ -x +y @@\n-x\n+y" =
      some [⟨"a/f", "b/f", []⟩] ∧
    ∀ s, (parse_unified_diff s).isSome = true :=
  ⟨by decide, fun s => parseLoop_isSome (pySplitNl s) none none []⟩

/-- Claim C6, counterexample: inside a hunk body, the line `JUNK`
(leading character not space, `+` or `-`) does not terminate the
collection: the later body line `+y` is still added to the hunk, so the
hunk's lines are `[" x", "+y"]` and not just `[" x"]`. -/
theorem junk_line_does_not_terminate_hunk :
    parse_unified_diff "--- a/f\n+++ b/f\n@@ -1,1 +1,2 @@\n x\nJUNK\n+y" =
      some [⟨"a/f", "b/f", [⟨1, 1, 1, 2, [" x", "+y"]⟩]⟩] ∧
    ([" x", "+y"] : List String) ≠ [" x"] := by
  decide

/-- Claim C6 (amended): while a hunk body is being collected, a line
whose leading character is not space, `+` or `-` is skipped and
collection continues; only a line starting with `@@` or `---` (or the
end of input) terminates the collection.  Here a "no newline" marker
inside the body is dropped while the body lines around it are all
collected, and a following `@@` header starts the next hunk. -/
theorem junk_lines_skipped_collection_continues :
    parse_unified_diff
      "--- a/g\n+++ b/g\n@@ -2,2 +2,2 @@\n a\n\\ No newline at end of file\n-b\n+c\n@@ -9,1 +9,1 @@\n-z\n+w" =
      some [⟨"a/g", "b/g",
        [⟨2, 2, 2, 2, [" a", "-b", "+c"]⟩, ⟨9, 1, 9, 1, ["-z", "+w"]⟩]⟩] := by
  decide

/-- Claim C7, counterexample: the parser stores the header paths
verbatim: after parsing `--- a/foo` / `+++ b/foo` the recorded paths
are `a/foo` and `b/foo`, which still carry the conventional prefixes,
refuting the claim that the parsed record carries no such prefix. -/
theorem parser_keeps_path_prefixes :
    parse_unified_diff "--- a/foo\n+++ b/foo" =
      some [⟨"a/foo", "b/foo", []⟩] ∧
    pyStartsWith "b/foo" "b/" = true ∧
    pyStartsWith "a/foo" "a/" = true := by
  decide

/-- Claim C7 (amended): the parser records the header paths verbatim
(whitespace-stripped only); the `b/` prefix of the modified-file path
is stripped later, by `apply_patch_file` when resolving the target
path, and the `a/` prefix of the original path is never stripped. -/
theorem path_stripped_only_at_resolution :
    parse_unified_diff "--- a/bar\n+++ b/bar\n@@ -1,1 +1,1 @@\n-u\n+v" =
      some [⟨"a/bar", "b/bar", [⟨1, 1, 1, 1, ["-u", "+v"]⟩]⟩] ∧
    resolvePath "b/bar" = "bar" ∧
    resolvePath "a/bar" = "a/bar" := by
  decide

end PatchTool
